import Mathlib

/-!
Shallow embedding of the core of the `web_test_automation_mcp` repository
(an MCP-driven browser test agent), together with theorems settling the
specification claims about it.

Each definition carries a comment naming the Python source location it
translates.  External collaborators (the LLM oracle, the MCP tool child
process, the md5 hash, the captured DOM/accessibility text) enter the
model as parameters, exactly where the source calls out to them.
-/

/- ---------------------------------------------------------------------
   src/mcp_client/jsonrpc.py — request id allocation
   --------------------------------------------------------------------- -/

namespace JsonRpc

/-- `src/mcp_client/jsonrpc.py` line 8: `_jsonrpc_id = itertools.count(1)`.
The module-level counter starts at 1. -/
def counterStart : Nat := 1

/-- `next_id()` (jsonrpc.py line 36): returns the current counter value and
advances it.  First component: the id handed out; second: the new counter. -/
def nextIdFrom (c : Nat) : Nat × Nat := (c, c + 1)

/-- Ways a single `McpSession.request` call can end after its id was
allocated (success, `asyncio.TimeoutError`, transport failure).  In
`session.py` lines 57-63 the id is allocated by `build_request` before any
fallible operation runs, so the outcome never influences the counter. -/
inductive ReqOutcome
  | ok
  | timeout
  | transportError
deriving DecidableEq, Repr

/-- The ids handed out by `next_id()` to a sequence of successive
`request()` calls, starting from counter value `c`.  One id per call; the
call's outcome is ignored, as in the source (the counter advance happens in
`build_request`, before `send`/`wait_for`). -/
def sessionIds (c : Nat) : List ReqOutcome → List Nat
  | [] => []
  | _ :: os => (nextIdFrom c).1 :: sessionIds (nextIdFrom c).2 os

end JsonRpc

/- ---------------------------------------------------------------------
   src/mcp_client/session.py — pending-call table and background reader
   --------------------------------------------------------------------- -/

namespace Mcp

/-- Decoded body of a JSON-RPC response (`jsonrpc.py` `extract_result`):
either a `result` value or an `error {code, message}`. -/
inductive RespPayload
  | result (v : String)
  | rpcError (code : Int) (msg : String)
deriving DecidableEq, Repr

/-- State of one `asyncio.Future` created by `McpSession.request`. -/
inductive FutState
  | pending
  | resolvedOk (v : String)
  | resolvedErr (code : Int) (msg : String)
  | cancelled
deriving DecidableEq, Repr

/-- `future.done()`: every state except `pending` is done. -/
def FutState.done : FutState → Bool
  | .pending => false
  | _ => true

/-- A message pulled from the transport by the background reader, already
classified as in `_reader_loop` (session.py lines 65-80): `is_response`,
`is_notification`, or anything else (ignored). -/
inductive McpMsg
  | response (id : Nat) (p : RespPayload)
  | notification (method : String)
  | other
deriving DecidableEq, Repr

/-- The session's call-correlation state.  `pending` is the `_pending`
dict (request id ↦ reference to the future object); `futures` holds every
future ever created by `request()`, indexed by creation order — popped
futures live on because their caller still awaits them. -/
structure SessionTable where
  pending : List (Nat × Nat)
  futures : List FutState
deriving DecidableEq, Repr

/-- Dict lookup `self._pending[id]` / `dict.pop(id, None)`'s hit test.
Python dict keys are unique, so first-hit lookup is exact. -/
def lookupPending : List (Nat × Nat) → Nat → Option Nat
  | [], _ => none
  | (k, v) :: rest, id => if k = id then some v else lookupPending rest id

/-- `future.set_result(extract_result(message))` /
`future.set_exception(exc)` from `_reader_loop`: a `result` body resolves
the future with the value, an `error` body resolves it with the decoded
`JsonRpcError`. -/
def resolveWith : RespPayload → FutState
  | .result v => .resolvedOk v
  | .rpcError c m => .resolvedErr c m

/-- One iteration of `McpSession._reader_loop` (session.py lines 65-80)
acting on the session table.  A response pops its id from `_pending`
(a dict pop removes the unique entry with that key, here rendered as a
filter); the popped future is resolved only if it is not yet done.
Notifications and unknown shapes leave the table untouched. -/
def readerHandle (s : SessionTable) : McpMsg → SessionTable
  | .response id p =>
    match lookupPending s.pending id with
    | some r =>
      let pending' := s.pending.filter (fun kv => kv.1 ≠ id)
      match s.futures.get? r with
      | some f =>
        if f.done then { pending := pending', futures := s.futures }
        else { pending := pending', futures := s.futures.set r (resolveWith p) }
      | none => { pending := pending', futures := s.futures }
    | none => s
  | .notification _ => s
  | .other => s

/-- The registration half of `McpSession.request` (session.py lines 57-61):
create a fresh future and store it under the allocated id in `_pending`. -/
def requestRegister (s : SessionTable) (id : Nat) : SessionTable :=
  { pending := s.pending ++ [(id, s.futures.length)]
    futures := s.futures ++ [FutState.pending] }

/-- `await asyncio.wait_for(fut, timeout=...)` timing out (session.py
line 63): `wait_for` cancels the still-pending future and raises
`TimeoutError`.  Note the source performs no cleanup of `_pending` here:
the slot stays in the table. -/
def timeoutCall (s : SessionTable) (r : Nat) : SessionTable :=
  match s.futures.get? r with
  | some f => if f.done then s else { s with futures := s.futures.set r .cancelled }
  | none => s

end Mcp

/- ---------------------------------------------------------------------
   src/mcp_client/transport.py + session.py — shutdown
   --------------------------------------------------------------------- -/

namespace Mcp

/-- The child process spawned by `StdioTransport.start`; we track only
whether it is still alive. -/
structure ChildProc where
  alive : Bool
deriving DecidableEq, Repr

/-- `StdioTransport`'s lifecycle state: the `_process` field
(`None` once stopped). -/
structure StdioTransport where
  process : Option ChildProc
deriving DecidableEq, Repr

/-- `StdioTransport.stop` (transport.py lines 28-57).  If `_process is
None` it returns at once.  Otherwise it closes stdin and walks the
escalating shutdown ladder (taskkill on Windows, else terminate then kill,
every wait bounded and every exception suppressed), after which the child
is no longer alive, and sets `_process = None`.  We model the
terminate/kill ladder as effective.  Returns the new transport state and,
when a child was present, its final (dead) state. -/
def StdioTransport.stop (t : StdioTransport) : StdioTransport × Option ChildProc :=
  match t.process with
  | none => (t, none)
  | some _ => ({ process := none }, some { alive := false })

/-- The `_reader_task` field of `McpSession`: a created task is either
still running or has been cancelled.  `Task.cancel()` on an
already-cancelled task is a no-op. -/
inductive TaskSt
  | running
  | cancelled
deriving DecidableEq, Repr

/-- `McpSession`'s lifecycle state: `_reader_task` (never reset to `None`
by the source) and the owned transport. -/
structure McpSession where
  readerTask : Option TaskSt
  transport : StdioTransport
deriving DecidableEq, Repr

/-- `McpSession.stop` (session.py lines 27-33): cancel the reader task if
one was created (awaiting it with `CancelledError`/`TimeoutError`
suppressed), then stop the transport with a bounded, suppressed wait. -/
def McpSession.stop (s : McpSession) : McpSession × Option ChildProc :=
  let rt := s.readerTask.map (fun _ => TaskSt.cancelled)
  let (t', c) := s.transport.stop
  ({ readerTask := rt, transport := t' }, c)

/-- Whether a `stop` call left a live child behind. -/
def childIsLive : Option ChildProc → Bool
  | some c => c.alive
  | none => false

end Mcp

/- ---------------------------------------------------------------------
   Executable models of the Python string primitives the sources use
   --------------------------------------------------------------------- -/

namespace PyStr

/-- Python `str.lower()` (ASCII case mapping, which is all the sources
feed it). -/
def pyLower (s : String) : String := String.mk (s.data.map Char.toLower)

/-- Python `str.strip()` with no argument: drop whitespace from both
ends. -/
def pyStrip (s : String) : String :=
  String.mk (((s.data.dropWhile Char.isWhitespace).reverse.dropWhile Char.isWhitespace).reverse)

/-- Does `hay` start with `needle`? -/
def charsHasPrefix : List Char → List Char → Bool
  | [], _ => true
  | _ :: _, [] => false
  | n :: ns, h :: hs => n == h && charsHasPrefix ns hs

/-- Python `needle in hay` on character lists: some suffix of `hay`
starts with `needle`. -/
def charsContains (needle : List Char) : List Char → Bool
  | [] => needle.isEmpty
  | c :: rest => charsHasPrefix needle (c :: rest) || charsContains needle rest

/-- Python `needle in hay` on strings. -/
def strContains (hay needle : String) : Bool := charsContains needle.data hay.data

/-- `str.splitlines()` for `\n`-separated text (the adapter's
`_snapshot_text` joins chunks with `"\n"`). -/
def splitNl (acc : List Char) : List Char → List String
  | [] => [String.mk acc.reverse]
  | c :: rest =>
    if c = '\n' then String.mk acc.reverse :: splitNl [] rest
    else splitNl (c :: acc) rest

end PyStr

/- ---------------------------------------------------------------------
   src/agent/policy.py + src/browser/actions.py — action normalization
   --------------------------------------------------------------------- -/

namespace Agent

/-- Python truthiness of an optional string (`not url`, `if selector`):
`None` and `""` are falsy. -/
def pyTruthy : Option String → Bool
  | none => false
  | some s => !s.isEmpty

/-- The raw decision dict consumed by `to_browser_action` (policy.py):
the fields it reads via `step.get(...)`. -/
structure RawStep where
  action : String
  selector : Option String
  value : Option String
  url : Option String
  waitEvent : Option String
deriving DecidableEq, Repr

/-- `BrowserAction` (src/browser/actions.py lines 6-13). -/
structure BrowserAction where
  action_type : String
  selector : Option String := none
  value : Option String := none
  url : Option String := none
  wait_event : Option String := none
  timeout_ms : Nat := 5000
deriving DecidableEq, Repr

/-- The verb-rewriting chain of `to_browser_action` (policy.py lines
12-19), applied to the already `strip().lower()`-ed verb, with the Python
truthiness of the `selector` and `url` fields. -/
def normalizeVerb (a : String) (selectorTruthy urlTruthy : Bool) : String :=
  if a = "navigate" && !urlTruthy then (if selectorTruthy then "click" else "wait")
  else if a = "open" then "navigate"
  else if a = "fill" then "type"
  else if a = "press_key" || a = "key" || a = "keypress" then "press"
  else a

/-- `to_browser_action` (policy.py lines 6-27): lowercase and trim the
verb, canonicalize legacy verbs, and package the fields. -/
def to_browser_action (step : RawStep) : BrowserAction :=
  let action := PyStr.pyLower (PyStr.pyStrip step.action)
  let action := normalizeVerb action (pyTruthy step.selector) (pyTruthy step.url)
  { action_type := action
    selector := step.selector
    value := step.value
    url := step.url
    wait_event := step.waitEvent }

/-- The action_type vocabulary named by the spec's data model:
{navigate, click, type, press, wait, wait_for_text, query}. -/
def allowedActionTypes : List String :=
  ["navigate", "click", "type", "press", "wait", "wait_for_text", "query"]

end Agent

/- ---------------------------------------------------------------------
   src/browser/dom_utils.py — DomSnapshot / DomDiffer
   --------------------------------------------------------------------- -/

namespace Dom

/-- `DomSnapshot` (dom_utils.py lines 6-23): keeps the tree (here: its
`str(...)` rendering, which is all the hash ever sees) and its content
fingerprint `tree_hash`. -/
structure DomSnapshot where
  tree : String
  treeHash : String
deriving DecidableEq, Repr

/-- `DomSnapshot.__init__`: `tree_hash = md5(str(tree)).hexdigest()`.
The md5 hex digest is an external pure function, passed in as `hash`. -/
def mkDomSnapshot (hash : String → String) (tree : String) : DomSnapshot :=
  { tree := tree, treeHash := hash tree }

/-- `DomSnapshot.__eq__` (dom_utils.py lines 22-25): two snapshots are
equal iff their `tree_hash`es are equal (the other operand here is always
a snapshot). -/
def snapshotEq (a b : DomSnapshot) : Bool :=
  a.treeHash == b.treeHash

/-- `DomDiffer.has_changed` (dom_utils.py lines 34-36):
`self.before != self.after`, i.e. the negation of `__eq__`. -/
def domHasChanged (before after : DomSnapshot) : Bool :=
  !(snapshotEq before after)

end Dom

/- ---------------------------------------------------------------------
   src/browser/observe.py + AgentLoop._observe — Observation construction
   --------------------------------------------------------------------- -/

namespace Agent

/-- Python `@dataclass(slots=True)` call semantics, restricted to what
decides whether a constructor call succeeds: the generated `__init__`
raises `TypeError` unless every field without a default receives an
argument.  `required` lists the fields with no default, `provided` the
keyword arguments at the call site. -/
def dataclassCallOk (required provided : List String) : Bool :=
  required.all (fun f => provided.contains f)

/-- The fields of `Observation` (src/browser/observe.py lines 7-12):
`dom`, `console`, `accessibility`, `ocr_text` — none has a default. -/
def observationRequiredFields : List String :=
  ["dom", "console", "accessibility", "ocr_text"]

/-- The keyword arguments of the only `Observation(...)` construction in
the repository, `AgentLoop._observe` (src/agent/loop.py line 368):
`Observation(dom=dom, console=console, accessibility=accessibility)`. -/
def observeCallKwargs : List String :=
  ["dom", "console", "accessibility"]

/-- The exception a failed dataclass call raises: `TypeError: __init__()
missing 1 required positional argument: '<field>'`. -/
inductive PyExc
  | typeErrorMissing (field : String)
deriving DecidableEq, Repr

/-- `Observation` (src/browser/observe.py lines 7-12): the four dataclass
fields, none with a default. -/
structure Observation where
  dom : String
  console : String
  accessibility : String
  ocr_text : String
deriving DecidableEq, Repr

/-- The three sub-results captured by `AgentLoop._observe` before it
builds the `Observation` (loop.py lines 353-366): the dom query, console
read and accessibility snapshot, each already degraded to an error
placeholder if its own capture failed — so the three values always
exist.  They are external inputs of the run. -/
structure Capture where
  dom : String
  console : String
  accessibility : String
deriving DecidableEq, Repr

/-- The `Observation(dom=dom, console=console, accessibility=accessibility)`
call at loop.py line 368.  Per Python dataclass-call semantics the call
succeeds only if every default-less field receives an argument
(`dataclassCallOk`); this call site passes three of the four required
fields, so the guard is false and the call raises `TypeError` naming the
missing `ocr_text`.  The `.ok` branch (whose `ocr_text` could only ever
be filler) is unreachable. -/
def observeBuild (dom console accessibility : String) : Except PyExc Observation :=
  if dataclassCallOk observationRequiredFields observeCallKwargs then
    .ok { dom := dom, console := console, accessibility := accessibility, ocr_text := "" }
  else .error (.typeErrorMissing "ocr_text")

/-- `AgentLoop._observe` (loop.py lines 343-368): best-effort screenshot
(no influence on the result), the three guarded sub-captures, then the
`Observation` construction — the point where the call raises. -/
def observeStep (c : Capture) : Except PyExc Observation :=
  observeBuild c.dom c.console c.accessibility

end Agent

/- ---------------------------------------------------------------------
   src/agent/loop.py + src/agent/memory.py — the step orchestrator
   --------------------------------------------------------------------- -/

namespace Agent

/-- One entry of `AgentMemory.history`, as pushed by `AgentLoop.run`
(loop.py lines 107-118): step index, 1-based attempt number, the boolean
`result["success"]`, and the `dom_changed` flag attached afterwards by the
diff check (loop.py line 146; absent until then). -/
structure HistEntry where
  step : Nat
  attempt : Nat
  ok : Bool
  domChanged : Option Bool
deriving DecidableEq, Repr

/-- `AgentMemory` (src/agent/memory.py): objective prompt, current step
index, append-only history, terminal error and success flag.  The
redundant `test_plan = {"objective": objective}` dict is omitted. -/
structure AgentMemory where
  prompt : String
  stepIndex : Nat
  history : List HistEntry
  lastError : Option String
  success : Bool
deriving DecidableEq, Repr

/-- One behaviour of the external decision oracle
(`groq_client.decide_next_action`, called at loop.py lines 59-64): either
it returns a decision whose `"action"` field is the given raw string, or
the call raises with the given message. -/
inductive OracleBeh
  | decide (action : String)
  | raise (msg : String)
deriving DecidableEq, Repr

/-- The external collaborators of one `AgentLoop.run` execution, indexed
by step: the oracle's behaviour (`groq_client.decide_next_action`, called
at loop.py lines 59-64 — either a decision whose `"action"` field is the
given string, or an exception), the per-attempt success of
`_execute_action` (attempts are 1-based), the md5 fingerprint function,
and the sub-results captured by the pre-action `_observe` of loop.py
line 50 and the post-action `_observe` of line 133. -/
structure RunEnv where
  oracle : Nat → OracleBeh
  execOk : Nat → Nat → Bool
  hash : String → String
  captureBefore : Nat → Capture
  captureAfter : Nat → Capture

/-- The execute-with-retry loop of `AgentLoop.run` (loop.py lines
97-129): `while attempt < step_retry_limit`, run the action, append an
entry to history whether it succeeded or failed, and break on the first
success.  `fuel = step_retry_limit - attempt` counts the remaining
iterations; `attempt` is the 0-based value before the `attempt += 1`. -/
def retryGo (execOk : Nat → Bool) (stepIdx : Nat) :
    Nat → Nat → AgentMemory → AgentMemory
  | 0, _, mem => mem
  | fuel + 1, attempt, mem =>
    let attempt' := attempt + 1
    let ok := execOk attempt'
    let mem' := { mem with history :=
      mem.history ++ [{ step := stepIdx, attempt := attempt', ok := ok, domChanged := none }] }
    if ok then mem' else retryGo execOk stepIdx fuel attempt' mem'

/-- Entry point of the retry loop: attempts start at 0 and the loop runs
while `attempt < step_retry_limit`. -/
def retryPhase (execOk : Nat → Bool) (retryLimit stepIdx : Nat) (mem : AgentMemory) :
    AgentMemory :=
  retryGo execOk stepIdx retryLimit 0 mem

/-- `memory.history[-1]["dom_changed"] = ...` guarded by
`if memory.history:` (loop.py lines 145-146). -/
def setLastDomChanged : List HistEntry → Bool → List HistEntry
  | [], _ => []
  | [e], b => [{ e with domChanged := some b }]
  | e :: e' :: rest, b => e :: setLastDomChanged (e' :: rest) b

/-- The DOM-diff check of `AgentLoop.run` (loop.py lines 131-149):
inside a `try`, take a post-action observation, fingerprint it, compare
with the pre-action fingerprint, on no change increment
`consecutive_unchanged_count`, on change reset it to 0, and stamp the
last history entry with the `dom_changed` flag; any exception in the
block resets the counter to 0 and leaves history alone.  The internal
`self._observe` call (line 133) re-raises the `Observation` construction
failure — see `observeBuild` — so the `except` branch is in fact the
only live one.  Returns the new counter and memory. -/
def diffPhase (env : RunEnv) (stepIdx counter : Nat) (mem : AgentMemory) :
    Nat × AgentMemory :=
  match observeStep (env.captureAfter stepIdx) with
  | .error _ => (0, mem)
  | .ok obsAfter =>
    let before := Dom.mkDomSnapshot env.hash (env.captureBefore stepIdx).accessibility
    let after := Dom.mkDomSnapshot env.hash obsAfter.accessibility
    let changed := Dom.domHasChanged before after
    let counter' := if changed then 0 else counter + 1
    (counter', { mem with history := setLastDomChanged mem.history changed })

/-- The main `while step_idx < self.max_steps` loop of `AgentLoop.run`
(loop.py lines 45-151), with `fuel = max_steps - step_idx`.  Each
iteration records the step index and then calls `self._observe`
(line 50) OUTSIDE any `try`: if the observation raises — which it always
does, because the `Observation` construction fails — the exception
propagates out of the loop.  Only if it returned would the iteration
consult the oracle (a raised oracle call sets `last_error` and breaks; a
`"done"` action sets `success = True` and breaks), run the retry loop
and the diff check, and advance.  Returns the final local `step_idx`
with the memory, or the escaped exception. -/
def runGo (env : RunEnv) (retryLimit : Nat) :
    Nat → Nat → Nat → AgentMemory → Except PyExc (Nat × AgentMemory)
  | 0, stepIdx, _, mem => .ok (stepIdx, mem)
  | fuel + 1, stepIdx, counter, mem =>
    let mem := { mem with stepIndex := stepIdx }
    match observeStep (env.captureBefore stepIdx) with
    | .error exc => .error exc
    | .ok _obs =>
      match env.oracle stepIdx with
      | .raise msg =>
        .ok (stepIdx, { mem with lastError := some ("LLM decision error: " ++ msg) })
      | .decide rawAction =>
        let actionType := PyStr.pyLower (PyStr.pyStrip rawAction)
        if actionType = "done" then
          .ok (stepIdx, { mem with success := true })
        else
          let mem := retryPhase (env.execOk stepIdx) retryLimit stepIdx mem
          let r := diffPhase env stepIdx counter mem
          runGo env retryLimit fuel (stepIdx + 1) r.1 r.2

/-- `AgentLoop.run` (loop.py lines 40-157): fresh memory, the step loop,
then the trailing `if step_idx >= self.max_steps: last_error = "Max
steps reached"` and `success = last_error is None and success`.  An
exception escaping the loop escapes `run` itself. -/
def run (env : RunEnv) (maxSteps retryLimit : Nat) (objective : String) :
    Except PyExc AgentMemory :=
  let mem0 : AgentMemory :=
    { prompt := objective, stepIndex := 0, history := [], lastError := none, success := false }
  match runGo env retryLimit maxSteps 0 0 mem0 with
  | .error exc => .error exc
  | .ok r =>
    let mem := if maxSteps ≤ r.1 then { r.2 with lastError := some "Max steps reached" } else r.2
    .ok { mem with success := mem.lastError.isNone && mem.success }

/-- The history entry appended for attempt `k` of step `s`
(loop.py lines 107-118), used to state the retry-loop theorem. -/
def mkAttempt (execOk : Nat → Bool) (s k : Nat) : HistEntry :=
  { step := s, attempt := k, ok := execOk k, domChanged := none }

end Agent

/- ---------------------------------------------------------------------
   src/browser/devtools_adapter.py — structural uid resolution
   --------------------------------------------------------------------- -/

namespace Adapter

/-- Python `needle in hay` on strings. -/
def strContains (hay needle : String) : Bool :=
  PyStr.strContains hay needle

/-- `re.fullmatch(r"\d+_\d+", token)` (devtools_adapter.py line 405):
digits, one underscore, digits. -/
def isUidShape (s : String) : Bool :=
  let ds1 := s.data.takeWhile Char.isDigit
  if ds1.isEmpty then false
  else
    match s.data.drop ds1.length with
    | '_' :: rest =>
      let ds2 := rest.takeWhile Char.isDigit
      !ds2.isEmpty && (rest.drop ds2.length).isEmpty
    | _ => false

/-- `_looks_like_css_selector` (lines 459-463): any of `#.[]>:+~` or
whitespace anywhere, or a full match of `[a-z][a-z0-9_-]*`
case-insensitively; the empty token is not CSS-like. -/
def looksLikeCssSelector (token : String) : Bool :=
  if token.isEmpty then false
  else
    (token.data.any fun c =>
      c = '#' || c = '.' || c = '[' || c = ']' || c = '>' || c = ':' || c = '+' ||
      c = '~' || c.isWhitespace)
    ||
    (match token.toList with
     | c :: rest => c.isAlpha && rest.all (fun d => d.isAlpha || d.isDigit || d = '_' || d = '-')
     | [] => false)

/-- Parse `\d+_\d+` at the head of a character list (the capture group of
`re.search(r"uid=(\d+_\d+)", line)`): maximal digits, `_`, maximal
digits. -/
def parseUidAt (cs : List Char) : Option String :=
  let ds1 := cs.takeWhile Char.isDigit
  if ds1.isEmpty then none
  else
    match cs.drop ds1.length with
    | '_' :: rest2 =>
      let ds2 := rest2.takeWhile Char.isDigit
      if ds2.isEmpty then none
      else some (String.mk (ds1 ++ '_' :: ds2))
    | _ => none

/-- The scan of `re.search(r"uid=(\d+_\d+)", line)`: find the first
position where `uid=` is followed by a well-formed uid, left to right. -/
def extractUidChars : List Char → Option String
  | [] => none
  | c :: rest =>
    match c, rest with
    | 'u', 'i' :: 'd' :: '=' :: tail =>
      (match parseUidAt tail with
       | some u => some u
       | none => extractUidChars rest)
    | _, _ => extractUidChars rest

/-- `_extract_uid` (lines 479-482). -/
def extractUid (line : String) : Option String :=
  extractUidChars line.toList

/-- `_find_first_uid_by_role` (lines 484-494): first line that carries a
uid and contains `" {role} "` inside `" {line.lower()} "`, additionally
required to contain the lowercased text filter when one is given. -/
def findFirstUidByRole (lines : List String) (role : String) (textMatch : Option String) :
    Option String :=
  let roleToken := " " ++ role ++ " "
  let text := PyStr.pyLower (textMatch.getD "")
  lines.findSome? fun line =>
    match extractUid line with
    | none => none
    | some uid =>
      let lowered := PyStr.pyLower line
      if strContains (" " ++ lowered ++ " ") roleToken then
        if !text.isEmpty && !(strContains lowered text) then none
        else some uid
      else none

/-- `_find_first_uid` (lines 496-501). -/
def findFirstUid (lines : List String) : Option String :=
  lines.findSome? extractUid

/-- Quote characters stripped by `token.strip('"\'')` — `"` (34) and
`'` (39). -/
def isQuoteChar (c : Char) : Bool :=
  c.toNat = 34 || c.toNat = 39

/-- `token.strip('"\'')`: drop quote characters from both ends. -/
def stripQuotes (s : String) : String :=
  String.mk (((s.toList.dropWhile isQuoteChar).reverse.dropWhile isQuoteChar).reverse)

/-- `re.fullmatch(r"role\s*[:=]\s*([a-zA-Z0-9_-]+)", token, IGNORECASE)`
(line 414), returning the captured role name lowercased as the source
does with `.group(1).lower()`. -/
def parseRoleSelector (token : String) : Option String :=
  match token.toList with
  | r :: o :: l :: e :: rest =>
    if [r.toLower, o.toLower, l.toLower, e.toLower] = ['r', 'o', 'l', 'e'] then
      match rest.dropWhile Char.isWhitespace with
      | c :: rest2 =>
        if c = ':' || c = '=' then
          let rest3 := rest2.dropWhile Char.isWhitespace
          let name := rest3.takeWhile fun d => d.isAlpha || d.isDigit || d = '_' || d = '-'
          if !name.isEmpty && rest3.drop name.length = [] then
            some (PyStr.pyLower (String.mk name))
          else none
        else none
      | [] => none
    else none
  | _ => none

/-- `re.match(r"^role\s*[:=]", token, IGNORECASE)` (line 415). -/
def roleSelStart (token : String) : Bool :=
  match token.toList with
  | r :: o :: l :: e :: rest =>
    [r.toLower, o.toLower, l.toLower, e.toLower] = ['r', 'o', 'l', 'e'] &&
      (match rest.dropWhile Char.isWhitespace with
       | c :: _ => c = ':' || c = '='
       | [] => false)
  | _ => false

/-- `re.search(r"[A-Za-zÀ-ÿ]", text_match)` (line 435): an ASCII letter
or a Latin-1 letter in the À–ÿ block. -/
def hasLetter (s : String) : Bool :=
  s.data.any fun c => c.isAlpha || (0xC0 ≤ c.toNat && c.toNat ≤ 0xFF)

/-- The snapshot-text preprocessing of `_resolve_uid` (line 412):
`[line.strip() for line in snapshot_text.splitlines() if line.strip()]`. -/
def linesOf (snapshotText : String) : List String :=
  ((PyStr.splitNl [] snapshotText.data).map PyStr.pyStrip).filter (fun l => !l.isEmpty)

/-- The fallback tiers of `_resolve_uid` after the snapshot was taken
(devtools_adapter.py lines 408-458), as a pure function of the trimmed
token, the snapshot lines and the preferred roles: (a) explicit
role-qualified selector; (b) preferred role + text containment;
(c) preferred role alone; (d) free-text containment; (e) role keyword
mentioned in the token; (f) first uid at all; each tier guarded exactly
as in the source, and the two failure messages of lines 453 and 458. -/
def resolveUidFromLines (selector token : String) (lines : List String)
    (preferredRoles : List String) : Except String String :=
  let css := looksLikeCssSelector token
  let textMatch := stripQuotes token
  let tierA :=
    match parseRoleSelector token with
    | some role => findFirstUidByRole lines role none
    | none => none
  match tierA with
  | some uid => .ok uid
  | none =>
    let tierB :=
      if !textMatch.isEmpty && !preferredRoles.isEmpty && !css then
        preferredRoles.findSome? fun role => findFirstUidByRole lines role (some textMatch)
      else none
    match tierB with
    | some uid => .ok uid
    | none =>
      let tierC :=
        if !css then preferredRoles.findSome? fun role => findFirstUidByRole lines role none
        else none
      match tierC with
      | some uid => .ok uid
      | none =>
        let tierD :=
          if !textMatch.isEmpty && hasLetter textMatch && !(roleSelStart token) && !css then
            lines.findSome? fun line =>
              match extractUid line with
              | some uid =>
                if strContains (PyStr.pyLower line) (PyStr.pyLower textMatch) then some uid else none
              | none => none
          else none
        match tierD with
        | some uid => .ok uid
        | none =>
          let lowered := PyStr.pyLower token
          let tierE :=
            if !css then
              match (if strContains lowered "button" then findFirstUidByRole lines "button" none else none) with
              | some uid => some uid
              | none =>
                if strContains lowered "link" then findFirstUidByRole lines "link" none else none
            else none
          match tierE with
          | some uid => .ok uid
          | none =>
            if css then
              .error ("Could not resolve MCP uid from CSS-like selector: " ++ selector)
            else
              match findFirstUid lines with
              | some uid => .ok uid
              | none => .error ("Could not resolve MCP uid for selector: " ++ selector)

/-- `DevToolsAdapter._resolve_uid` (lines 403-458).  Returns the ordered
list of tool calls issued (`_call_and_track` records `take_snapshot`
before the call) and the resolution result.  A token already shaped like
an opaque uid (`\d+_\d+`) is returned as-is with no tool call at all;
every other token first takes a fresh snapshot, whose text is the
`snapshotText` parameter. -/
def resolveUid (selector : String) (snapshotText : String) (preferredRoles : List String) :
    List String × Except String String :=
  let token := PyStr.pyStrip selector
  if isUidShape token then ([], .ok token)
  else
    (["take_snapshot"], resolveUidFromLines selector token (linesOf snapshotText) preferredRoles)

end Adapter

namespace Agent

/-- The verbs `to_browser_action` actually canonicalizes into the spec's
action_type vocabulary: the seven canonical verbs themselves plus the
legacy verbs `open`, `fill`, `press_key`, `key`, `keypress` rewritten by
policy.py lines 12-19. -/
def canonicalVerbs : List String :=
  allowedActionTypes ++ ["open", "fill", "press_key", "key", "keypress"]

end Agent

/- =====================================================================
   Theorems
   ===================================================================== -/

/- --------------------------- helper lemmas --------------------------- -/

namespace Mcp

theorem lookupPending_filter_self (l : List (Nat × Nat)) (id : Nat) :
    lookupPending (l.filter (fun kv => kv.1 ≠ id)) id = none := by
  induction l with
  | nil => rfl
  | cons kv rest ih =>
    by_cases h : kv.1 = id
    · simpa [List.filter_cons, h] using ih
    · simpa [List.filter_cons, h, lookupPending] using ih

theorem readerHandle_of_lookup_none (t : SessionTable) (id : Nat) (p : RespPayload)
    (h : lookupPending t.pending id = none) :
    readerHandle t (.response id p) = t := by
  simp [readerHandle, h]

theorem readerHandle_pending_filter (s : SessionTable) (id : Nat) (p : RespPayload) (r : Nat)
    (h : lookupPending s.pending id = some r) :
    (readerHandle s (.response id p)).pending = s.pending.filter (fun kv => kv.1 ≠ id) := by
  simp only [readerHandle, h]
  cases hf : s.futures.get? r with
  | none => rfl
  | some f => cases hd : f.done <;> simp [hd]

end Mcp

/- ------------------------------ C2 ----------------------------------- -/

/-- C2: the claim says constructing the per-step `Observation` from the
captured dom/console/accessibility sub-results always succeeds, so that
`run()` returns a Run Memory instead of raising.  The code contradicts
this: `Observation` (observe.py lines 7-12) is a slots dataclass whose
four fields — including `ocr_text` — all lack defaults, while the only
construction site, `AgentLoop._observe` (loop.py line 368), passes only
`dom`, `console` and `accessibility`.  The generated `__init__` therefore
raises `TypeError` on every call, and `_observe` is invoked outside any
`try` at the top of every loop iteration (loop.py line 50), so `run()`
raises at step 0.  This theorem evaluates the dataclass-call check at
that call site: the call does not succeed, and the missing required field
is exactly `ocr_text`. -/
theorem claim_C2_observation_construction_fails :
    Agent.dataclassCallOk Agent.observationRequiredFields Agent.observeCallKwargs = false ∧
    Agent.observationRequiredFields.contains "ocr_text" = true ∧
    Agent.observeCallKwargs.contains "ocr_text" = false := by
  refine ⟨rfl, rfl, rfl⟩

/- ------------------------------ C3 ----------------------------------- -/

/-- C3: each pending-call slot is resolved at most once.  After the
background reader handles a response for some id — popping the slot and
resolving its future — handling a second message carrying the same id
(whatever payload it carries) leaves the whole session table unchanged:
the second resolution attempt is exactly a no-op, never an overwrite. -/
theorem claim_C3_slot_resolved_at_most_once
    (s : Mcp.SessionTable) (id : Nat) (p p' : Mcp.RespPayload) :
    Mcp.readerHandle (Mcp.readerHandle s (.response id p)) (.response id p') =
      Mcp.readerHandle s (.response id p) := by
  cases h : Mcp.lookupPending s.pending id with
  | none =>
    rw [Mcp.readerHandle_of_lookup_none s id p h,
        Mcp.readerHandle_of_lookup_none s id p' h]
  | some r =>
    apply Mcp.readerHandle_of_lookup_none
    rw [Mcp.readerHandle_pending_filter s id p r h]
    exact Mcp.lookupPending_filter_self s.pending id

/- ------------------------------ C4 ----------------------------------- -/

/-- C4: the ids assigned to successive `request()` calls over the
lifetime of a session form a strictly increasing sequence of integers and
are never reused, whatever the outcome of each call (success, timeout or
transport failure): starting from any counter value `c`, `n` requests
receive exactly the ids `c, c+1, …, c+n-1`, depending only on how many
requests were made — never on how they ended — hence pairwise strictly
increasing and without duplicates. -/
theorem claim_C4_request_ids_strictly_increasing
    (c : Nat) (os : List JsonRpc.ReqOutcome) :
    JsonRpc.sessionIds c os = (List.range os.length).map (c + ·) ∧
    List.Pairwise (· < ·) (JsonRpc.sessionIds c os) ∧
    (JsonRpc.sessionIds c os).Nodup := by
  have heq : ∀ (os : List JsonRpc.ReqOutcome) (c : Nat),
      JsonRpc.sessionIds c os = (List.range os.length).map (c + ·) := by
    intro os
    induction os with
    | nil => intro c; rfl
    | cons o rest ih =>
      intro c
      rw [show (o :: rest).length = rest.length + 1 from rfl, List.range_succ_eq_map]
      simp only [List.map_cons, List.map_map]
      rw [show JsonRpc.sessionIds c (o :: rest) = c :: JsonRpc.sessionIds (c + 1) rest from rfl]
      rw [ih (c + 1)]
      refine congrArg₂ _ (by omega) (List.map_congr_left ?_)
      intro i _
      show (c + 1) + i = c + (i + 1)
      omega
  have hpair : List.Pairwise (· < ·) (JsonRpc.sessionIds c os) := by
    rw [heq os c]
    exact (List.pairwise_lt_range os.length).map _ (fun a b hab => by omega)
  exact ⟨heq os c, hpair, hpair.imp Nat.ne_of_lt⟩

/- ------------------------------ C5 ----------------------------------- -/

/-- C5 counterexample: the claim says that when a call times out "its
pending-call slot is discarded at that moment".  Concretely: an empty
session registers one call with id 1 (future reference 0) and that call
times out.  At that moment the future has been cancelled — yet the slot
for id 1 is still in the `_pending` table (`request()` in session.py
lines 57-63 performs no cleanup on the timeout path), contradicting the
claim. -/
theorem claim_C5_counterexample :
    (Mcp.timeoutCall (Mcp.requestRegister ⟨[], []⟩ 1) 0).futures = [.cancelled] ∧
    Mcp.lookupPending (Mcp.timeoutCall (Mcp.requestRegister ⟨[], []⟩ 1) 0).pending 1 =
      some 0 := by
  refine ⟨rfl, rfl⟩

/-- C5 (amended): when a call reaches its per-call timeout it fails with
a timeout error and its future is cancelled, but its pending-call slot is
NOT discarded at that moment — the entry stays in the table; a
late-arriving response for that id removes the entry then and is dropped:
it resolves no future (the popped future is already done) and leaves
every other pending entry and every future untouched. -/
theorem claim_C5_late_response_dropped
    (s : Mcp.SessionTable) (id : Nat) (p : Mcp.RespPayload) (r : Nat)
    (hr : Mcp.lookupPending s.pending id = some r)
    (hdone : ∀ f, s.futures.get? r = some f → f.done = true) :
    Mcp.readerHandle s (.response id p) =
      { pending := s.pending.filter (fun kv => kv.1 ≠ id), futures := s.futures } := by
  simp only [Mcp.readerHandle, hr]
  cases hf : s.futures.get? r with
  | none => rfl
  | some f => simp [hdone f hf]

/-- C5 witness: the amended theorem applied to the timed-out session of
the counterexample and a late response for id 1: the slot is removed, the
cancelled future stays cancelled, nothing else changes. -/
theorem claim_C5_late_response_dropped_witness :
    Mcp.readerHandle (Mcp.timeoutCall (Mcp.requestRegister ⟨[], []⟩ 1) 0)
        (.response 1 (.result "late")) =
      { pending := [], futures := [.cancelled] } :=
  (claim_C5_late_response_dropped (Mcp.timeoutCall (Mcp.requestRegister ⟨[], []⟩ 1) 0)
      1 (.result "late") 0 rfl
      (by intro f hf; simp only [List.get?] at hf; cases hf; rfl)).trans (by rfl)

/- ------------------------------ C8 ----------------------------------- -/

/-- C8: `stop()` is idempotent on both the Transport and the Session:
a first stop leaves no live child process, and a second stop observes the
already-stopped state, changes nothing, and kills nothing. -/
theorem claim_C8_stop_idempotent (t : Mcp.StdioTransport) (s : Mcp.McpSession) :
    Mcp.StdioTransport.stop (Mcp.StdioTransport.stop t).1 =
      ((Mcp.StdioTransport.stop t).1, none) ∧
    Mcp.childIsLive (Mcp.StdioTransport.stop t).2 = false ∧
    Mcp.McpSession.stop (Mcp.McpSession.stop s).1 = ((Mcp.McpSession.stop s).1, none) ∧
    Mcp.childIsLive (Mcp.McpSession.stop s).2 = false := by
  obtain ⟨p⟩ := t
  obtain ⟨rt, ⟨q⟩⟩ := s
  refine ⟨?_, ?_, ?_, ?_⟩ <;>
    first
      | (cases p <;> rfl)
      | (cases rt <;> cases q <;> rfl)

/- ------------------------------ C9 ----------------------------------- -/

/-- C9 counterexample: the claim says normalization yields an action_type
in {navigate, click, type, press, wait, wait_for_text, query} for every
raw decision, unknown verbs included.  But `to_browser_action` (policy.py
lines 6-27) rewrites only `navigate`-without-url, `open`, `fill` and the
`key` variants and passes every other verb through unchanged: the raw
decision `{"action": "frobnicate"}` normalizes to action_type
`"frobnicate"`, which is outside the set. -/
theorem claim_C9_counterexample :
    (Agent.to_browser_action
        { action := "frobnicate", selector := none, value := none,
          url := none, waitEvent := none }).action_type = "frobnicate" ∧
    Agent.allowedActionTypes.contains
      (Agent.to_browser_action
        { action := "frobnicate", selector := none, value := none,
          url := none, waitEvent := none }).action_type = false := by
  refine ⟨by decide, by decide⟩

/-- C9 (amended): normalization canonicalizes the legacy verbs — `open`
becomes navigate, `fill` becomes type, `press_key`/`key`/`keypress`
become press, and `navigate` without a url is downgraded to click (with a
selector) or wait — so whenever the trimmed, lowercased raw verb is one
of the seven canonical verbs or one of those legacy verbs, the resulting
action_type lies in {navigate, click, type, press, wait, wait_for_text,
query}; verbs outside that vocabulary pass through unchanged and may fall
outside the set. -/
theorem claim_C9_known_verbs_canonicalized (step : Agent.RawStep)
    (h : Agent.canonicalVerbs.contains (PyStr.pyLower (PyStr.pyStrip step.action)) = true) :
    Agent.allowedActionTypes.contains (Agent.to_browser_action step).action_type = true := by
  have hmem : PyStr.pyLower (PyStr.pyStrip step.action) ∈ Agent.canonicalVerbs :=
    List.mem_of_elem_eq_true h
  have hall : ∀ x ∈ Agent.canonicalVerbs, ∀ hs hu : Bool,
      Agent.allowedActionTypes.contains (Agent.normalizeVerb x hs hu) = true := by
    decide
  exact hall _ hmem (Agent.pyTruthy step.selector) (Agent.pyTruthy step.url)

/-- C9 witness: the legacy verb `"Open"` (with a url, no selector)
satisfies the amended theorem's hypothesis and normalizes into the set
(to `navigate`). -/
theorem claim_C9_known_verbs_canonicalized_witness :
    Agent.canonicalVerbs.contains (PyStr.pyLower (PyStr.pyStrip "Open")) = true ∧
    Agent.allowedActionTypes.contains
      (Agent.to_browser_action
        { action := "Open", selector := none, value := none,
          url := some "https://example.com", waitEvent := none }).action_type = true :=
  ⟨by decide,
   claim_C9_known_verbs_canonicalized
     { action := "Open", selector := none, value := none,
       url := some "https://example.com", waitEvent := none } (by decide)⟩

/- ------------------------------ C10 ---------------------------------- -/

/-- C10: if the selector token (after trimming) already matches the
opaque uid shape `digits_underscore_digits`, `_resolve_uid` returns that
token unchanged without issuing any tool call — in particular without
taking an accessibility snapshot; for every other token, resolution
begins by taking a fresh snapshot (the first and only tool call it
issues). -/
theorem claim_C10_uid_shortcut (selector snapshotText : String) (roles : List String) :
    (Adapter.isUidShape (PyStr.pyStrip selector) = true →
      Adapter.resolveUid selector snapshotText roles = ([], .ok (PyStr.pyStrip selector))) ∧
    (Adapter.isUidShape (PyStr.pyStrip selector) = false →
      (Adapter.resolveUid selector snapshotText roles).1 = ["take_snapshot"]) := by
  constructor
  · intro h
    simp [Adapter.resolveUid, h]
  · intro h
    simp [Adapter.resolveUid, h]

/-- C10 witness: the uid-shaped token `"12_34"` is returned as-is with no
tool call, while the free-text token `"Submit"` causes a snapshot to be
taken first. -/
theorem claim_C10_uid_shortcut_witness :
    Adapter.resolveUid "12_34" "" ["button", "link"] = ([], .ok "12_34") ∧
    (Adapter.resolveUid "Submit" "- button \"Go\" uid=1_2" ["button", "link"]).1 =
      ["take_snapshot"] :=
  ⟨((claim_C10_uid_shortcut "12_34" "" ["button", "link"]).1 (by decide)).trans (by rfl),
   (claim_C10_uid_shortcut "Submit" "- button \"Go\" uid=1_2" ["button", "link"]).2 (by decide)⟩

/- -------------------- helper lemmas for the run loop ------------------ -/

namespace Agent

/-- Every `_observe` call raises `TypeError` for the missing `ocr_text`
argument of the `Observation` construction, whatever was captured. -/
theorem observeStep_raises (c : Capture) :
    observeStep c = .error (PyExc.typeErrorMissing "ocr_text") := rfl

/-- Every run with a positive step budget raises at step 0's pre-action
observation, before the oracle is ever consulted. -/
theorem run_raises (env : RunEnv) (maxSteps retryLimit : Nat) (objective : String) :
    run env (maxSteps + 1) retryLimit objective =
      .error (PyExc.typeErrorMissing "ocr_text") := by
  simp [run, runGo, observeStep_raises]

end Agent

namespace Agent

theorem retryGo_spec (execOk : Nat → Bool) (s : Nat) :
    ∀ (fuel a : Nat) (mem : AgentMemory),
      ∃ n, n ≤ fuel ∧
        retryGo execOk s fuel a mem =
          { mem with history :=
              mem.history ++ (List.range n).map (fun i => mkAttempt execOk s (a + i + 1)) } ∧
        (∀ i, i + 1 < n → execOk (a + i + 1) = false) ∧
        (n = fuel ∨ (0 < n ∧ execOk (a + n) = true)) := by
  intro fuel
  induction fuel with
  | zero =>
    intro a mem
    exact ⟨0, Nat.le_refl 0, by simp [retryGo], fun i hi => by omega, Or.inl rfl⟩
  | succ f ih =>
    intro a mem
    by_cases h : execOk (a + 1)
    · refine ⟨1, by omega, ?_, fun i hi => by omega, Or.inr ⟨by omega, by simpa using h⟩⟩
      simp [retryGo, h, List.range_succ, mkAttempt]
    · obtain ⟨n', hle, heq, hfail, hend⟩ := ih (a + 1)
        { mem with history := mem.history ++
            [{ step := s, attempt := a + 1, ok := execOk (a + 1), domChanged := none }] }
      refine ⟨n' + 1, by omega, ?_, ?_, ?_⟩
      · have hstep : retryGo execOk s (f + 1) a mem =
            retryGo execOk s f (a + 1)
              { mem with history := mem.history ++
                  [{ step := s, attempt := a + 1, ok := execOk (a + 1), domChanged := none }] } := by
          simp [retryGo, h]
        rw [hstep, heq]
        have hh : (mem.history ++
              [{ step := s, attempt := a + 1, ok := execOk (a + 1), domChanged := none }]) ++
              (List.range n').map (fun i => mkAttempt execOk s (a + 1 + i + 1)) =
            mem.history ++ (List.range (n' + 1)).map (fun i => mkAttempt execOk s (a + i + 1)) := by
          rw [List.append_assoc, List.singleton_append, List.range_succ_eq_map, List.map_cons,
            List.map_map]
          congr 1
          congr 1
          refine List.map_congr_left ?_
          intro i _
          show mkAttempt execOk s (a + 1 + i + 1) = mkAttempt execOk s (a + (i + 1) + 1)
          rw [show a + 1 + i + 1 = a + (i + 1) + 1 by omega]
        congr 1
      · intro i hi
        cases i with
        | zero =>
          simpa using (by simpa using h : execOk (a + 1) = false)
        | succ i' =>
          have hx := hfail i' (by omega)
          rwa [show a + 1 + i' + 1 = a + (i' + 1) + 1 by omega] at hx
      · rcases hend with h1 | ⟨h1, h2⟩
        · exact Or.inl (by omega)
        · exact Or.inr ⟨by omega, by rwa [show a + 1 + n' = a + (n' + 1) by omega] at h2⟩

end Agent


/- ------------------------------ C1 ----------------------------------- -/

/-- C1: the claim describes `run()`'s terminal states — `"done"` ⇒
terminal success true; an oracle exception at a step ⇒ the run ends
there with success false and the failure recorded; budget exhaustion ⇒
success false with the step-budget error; success true only with no
recorded error and an explicit `"done"`.  The code cannot exhibit any of
them: the pre-action observation of loop.py line 50 — outside any `try`
— raises the `Observation` construction `TypeError` (the defect
established for claim C2), so for every positive step budget `run()`
raises at step 0; the oracle is never consulted and no terminal success
flag or error string is ever produced.  The only reachable return is the
degenerate zero-budget run, which never enters the loop and returns the
budget-exhausted error with success false. -/
theorem claim_C1_run_raises_not_terminates (env : Agent.RunEnv)
    (maxSteps retryLimit : Nat) (objective : String) :
    Agent.run env (maxSteps + 1) retryLimit objective =
      .error (Agent.PyExc.typeErrorMissing "ocr_text") ∧
    Agent.run env 0 retryLimit objective =
      .ok { prompt := objective, stepIndex := 0, history := [],
            lastError := some "Max steps reached", success := false } :=
  ⟨Agent.run_raises env maxSteps retryLimit objective, rfl⟩

/- ------------------------------ C6 ----------------------------------- -/

/-- C6: the fingerprint half of the claim holds of the code —
`has_changed()` is false exactly when the two `tree_hash` fingerprints
are equal and true otherwise.  The counter half the code cannot exhibit:
inside the diff-check `try` (loop.py lines 131-149) the post-action
`self._observe` raises the `Observation` construction `TypeError` (the
defect established for claim C2), so the `except` branch is the only
live one and the diff check resets the consecutive-unchanged counter to
0 unconditionally — it is never incremented; moreover the run raises at
the pre-action observation of its first step, so the diff block is never
even reached. -/
theorem claim_C6_counter_never_incremented :
    (∀ s1 s2 : Dom.DomSnapshot,
      Dom.domHasChanged s1 s2 = (if s1.treeHash = s2.treeHash then false else true)) ∧
    (∀ (env : Agent.RunEnv) (stepIdx counter : Nat) (mem : Agent.AgentMemory),
      Agent.diffPhase env stepIdx counter mem = (0, mem)) ∧
    (∀ (env : Agent.RunEnv) (maxSteps retryLimit : Nat) (objective : String),
      Agent.run env (maxSteps + 1) retryLimit objective =
        .error (Agent.PyExc.typeErrorMissing "ocr_text")) := by
  refine ⟨?_, ?_, ?_⟩
  · intro s1 s2
    by_cases h : s1.treeHash = s2.treeHash <;> simp [Dom.domHasChanged, Dom.snapshotEq, h]
  · intro env stepIdx counter mem
    simp [Agent.diffPhase, Agent.observeStep_raises]
  · exact fun env maxSteps retryLimit objective =>
      Agent.run_raises env maxSteps retryLimit objective

/- ------------------------------ C7 ----------------------------------- -/

/-- C7: the retry loop as written does have the claimed shape — some
`n ≤ step_retry_limit` attempts run, one history entry is appended per
attempt with its outcome, every non-final attempt failed (the loop stops
at the first success), and the loop ends only at the attempt ceiling or
at a successful attempt.  But the code cannot execute it: for every
positive step budget the run raises the `Observation` construction
`TypeError` (the defect established for claim C2) at the pre-action
observation of step 0, before any attempt runs — so no attempt is ever
executed, no history entry is ever appended, and the claimed
"proceed to the next step after an exhausted retry ceiling" behaviour
occurs in no execution. -/
theorem claim_C7_retry_never_runs (execOk : Nat → Bool) (limit s : Nat)
    (mem : Agent.AgentMemory) :
    (∃ n, n ≤ limit ∧
      (Agent.retryPhase execOk limit s mem).history =
        mem.history ++ (List.range n).map (fun i => Agent.mkAttempt execOk s (i + 1)) ∧
      (∀ i, i + 1 < n → execOk (i + 1) = false) ∧
      (n = limit ∨ (0 < n ∧ execOk n = true))) ∧
    (∀ (env : Agent.RunEnv) (maxSteps retryLimit : Nat) (objective : String),
      Agent.run env (maxSteps + 1) retryLimit objective =
        .error (Agent.PyExc.typeErrorMissing "ocr_text")) := by
  constructor
  · obtain ⟨n, hle, heq, hfail, hend⟩ := Agent.retryGo_spec execOk s limit 0 mem
    refine ⟨n, hle, ?_, ?_, ?_⟩
    · show (Agent.retryGo execOk s limit 0 mem).history = _
      rw [heq]
      simp only [Nat.zero_add]
    · intro i hi
      simpa using hfail i hi
    · rcases hend with h1 | ⟨h1, h2⟩
      · exact Or.inl h1
      · exact Or.inr ⟨h1, by simpa using h2⟩
  · exact fun env maxSteps retryLimit objective =>
      Agent.run_raises env maxSteps retryLimit objective
